import Mathlib

/-!
Verification of the stylestats analysis engine (`src/bin/cli.js`, the
`Analyzer` module).  Every definition below is a shallow embedding of the
corresponding JavaScript function; JS strings are modelled as Lean
`String`/`List Char` (code points; all inputs of interest are ASCII, where
UTF-16 units and code points agree), JS numbers that hold counts as `Nat`,
JS division results as `ℚ` (JS produces `NaN`/`Infinity` on a zero divisor;
only presence/absence of such fields is at stake in the claims, never the
quotient at a zero divisor), absent JS object fields as `Option`, and the
fallible external gzip collaborator as an `Except`-valued function.
-/

namespace StyleStats

/-- JS `\s` character class (ASCII part; the unicode spaces JS also accepts
never occur in the inputs analysed here). -/
def jsWs (c : Char) : Bool :=
  c = ' ' || c = '\t' || c = '\n' || c = '\r' || c = '\x0b' || c = '\x0c'

/-- JS `String.prototype.trim`: drop leading and trailing whitespace. -/
def jsTrim (s : String) : String :=
  String.mk (((s.data.dropWhile jsWs).reverse.dropWhile jsWs).reverse)

/-- JS `String.prototype.toUpperCase` (ASCII). -/
def jsToUpper (s : String) : String :=
  String.mk (s.data.map Char.toUpper)

/-- `Buffer.byteLength(str, 'utf8')`: the UTF-8 byte length. -/
def utf8Len (s : String) : Nat :=
  (s.data.map Char.utf8Size).sum

/-- Does `pat` occur starting at the head of `l`? (JS `indexOf` helper.) -/
def beginsWith : List Char → List Char → Bool
  | _, [] => true
  | [], _ :: _ => false
  | c :: l, p :: ps => c = p && beginsWith l ps

/-- `value.indexOf(pat) > -1` for a literal pattern. -/
def containsSubstrL : List Char → List Char → Bool
  | [], pat => pat.isEmpty
  | l@(_ :: rest), pat => beginsWith l pat || containsSubstrL rest pat

def containsSubstr (s pat : String) : Bool :=
  containsSubstrL s.data pat.data

/-- Remove the first occurrence of literal `pat` (JS `replace(/pat/, '')`
with no `g` flag). -/
def removeFirstSubL (pat : List Char) : List Char → List Char
  | [] => []
  | l@(c :: rest) =>
    if beginsWith l pat && !pat.isEmpty then l.drop pat.length
    else c :: removeFirstSubL pat rest

def removeFirstSub (s pat : String) : String :=
  String.mk (removeFirstSubL pat.data s.data)

/-- Remove every occurrence of literal `pat` (JS `replace(/pat/g, '')`).
The fuel argument only drives structural recursion; every step consumes at
least one input character, so an initial fuel of the input length never
runs out. -/
def removeAllSubAux (pat : List Char) : Nat → List Char → List Char
  | 0, l => l
  | _ + 1, [] => []
  | fuel + 1, c :: rest =>
    if beginsWith (c :: rest) pat && !pat.isEmpty then
      removeAllSubAux pat fuel ((c :: rest).drop pat.length)
    else c :: removeAllSubAux pat fuel rest

def removeAllSub (s pat : String) : String :=
  String.mk (removeAllSubAux pat.data s.data.length s.data)

/-! ### Chain length (`analyzeSelectors`, lines 301-303)

`selector.replace(/\s?([\>|\+|\~])\s?/g, '$1')`, then
`.replace(/\s+/g, ' ')`, then `.split(/\s|\>|\+|\~/).length`. -/

/-- The character class `[\>|\+|\~]` of the first replacement (note that it
also contains the alternation bar itself). -/
def isCombBar (c : Char) : Bool :=
  c = '>' || c = '|' || c = '+' || c = '~'

/-- Drop at most one leading whitespace character (`\s?` after the
combinator). -/
def dropOneWs : List Char → List Char
  | [] => []
  | c :: rest => if jsWs c then rest else c :: rest

theorem length_dropOneWs_le (l : List Char) : (dropOneWs l).length ≤ l.length := by
  cases l with
  | nil => simp [dropOneWs]
  | cons c rest =>
    simp only [dropOneWs]
    split <;> simp

/-- Global replacement `/\s?([\>|\+|\~])\s?/g → '$1'`: at each position the
(leftmost, greedy) match consumes at most one whitespace character before
the combinator and at most one after, and is replaced by the combinator
alone; scanning resumes after the match.  Fuel drives structural
recursion; every step consumes at least one character. -/
def replaceCombAux : Nat → List Char → List Char
  | 0, l => l
  | _ + 1, [] => []
  | fuel + 1, c0 :: rest =>
    if jsWs c0 then
      match rest with
      | c1 :: rest1 =>
        if isCombBar c1 then c1 :: replaceCombAux fuel (dropOneWs rest1)
        else c0 :: replaceCombAux fuel (c1 :: rest1)
      | [] => [c0]
    else if isCombBar c0 then c0 :: replaceCombAux fuel (dropOneWs rest)
    else c0 :: replaceCombAux fuel rest

def replaceComb (l : List Char) : List Char :=
  replaceCombAux l.length l

/-- Global replacement `/\s+/g → ' '`: each maximal whitespace run becomes
one space.  Fuel as above. -/
def collapseWsAux : Nat → List Char → List Char
  | 0, l => l
  | _ + 1, [] => []
  | fuel + 1, c :: rest =>
    if jsWs c then ' ' :: collapseWsAux fuel (rest.dropWhile jsWs)
    else c :: collapseWsAux fuel rest

def collapseWs (l : List Char) : List Char :=
  collapseWsAux l.length l

/-- The split separators `/\s|\>|\+|\~/` (no alternation bar here). -/
def isSplitSep (c : Char) : Bool :=
  jsWs c || c = '>' || c = '+' || c = '~'

/-- JS `String.prototype.split` on a single-character separator class:
pieces between separator matches, keeping empty pieces (also leading and
trailing ones). -/
def splitTokens : List Char → List (List Char)
  | [] => [[]]
  | c :: rest =>
    if isSplitSep c then [] :: splitTokens rest
    else
      match splitTokens rest with
      | t :: ts => (c :: t) :: ts
      | [] => [[c]]

/-- Chain length of one selector (`analyzeSelectors`, lines 301-303). -/
def chainLength (selector : String) : Nat :=
  (splitTokens (collapseWs (replaceComb selector.data))).length

/-! ### A small backtracking regex engine with JS semantics

The analyzer uses a handful of concrete regular expressions
(`rgbRegex`, `hexColorRegex`, the data-URI regex, the named-colors regex
and the configured JS-hook regex).  Each of them is transcribed below as an
abstract syntax tree and executed by a fuel-bounded backtracking matcher
that follows JS semantics: leftmost match, alternatives tried left to
right, greedy repetition with backtracking, capture groups recording the
last enclosing successful attempt, `^`/`$` anchors without the multiline
flag, and `\b` word boundaries.  The fuel only bounds the backtracking
depth; it is chosen large enough for every concrete input evaluated in the
theorems below. -/

inductive RE where
  | eps
  | chr (c : Char)
  | cls (p : Char → Bool)
  | cat (r s : RE)
  | alt (r s : RE)
  | star (r : RE)
  | group (idx : Nat) (r : RE)
  | bol
  | eol
  | wordB

/-- JS `\w`. -/
def isWordChar (c : Char) : Bool :=
  ('a' ≤ c && c ≤ 'z') || ('A' ≤ c && c ≤ 'Z') || ('0' ≤ c && c ≤ '9') || c = '_'

/-- Captured group spans: (group index, start, end); the most recent entry
for an index wins. -/
abbrev Caps := List (Nat × Nat × Nat)

def getCap (caps : Caps) (i : Nat) : Option (Nat × Nat) :=
  (caps.find? (fun t => t.1 = i)).map (fun t => t.2)

def reSize : RE → Nat
  | .eps | .chr _ | .cls _ | .bol | .eol | .wordB => 1
  | .cat r s => reSize r + reSize s + 1
  | .alt r s => reSize r + reSize s + 1
  | .star r => reSize r + 1
  | .group _ r => reSize r + 1

/-- Continuation-passing backtracking matcher over the full input `s`
starting at position `i`. -/
def mrun (s : List Char) : Nat → RE → Nat → Caps →
    (Nat → Caps → Option (Nat × Caps)) → Option (Nat × Caps)
  | 0, _, _, _, _ => none
  | fuel + 1, re, i, caps, k =>
    match re with
    | .eps => k i caps
    | .chr c =>
      match s.get? i with
      | some c2 => if c2 = c then k (i + 1) caps else none
      | none => none
    | .cls p =>
      match s.get? i with
      | some c2 => if p c2 then k (i + 1) caps else none
      | none => none
    | .cat r1 r2 =>
      mrun s fuel r1 i caps (fun j caps2 => mrun s fuel r2 j caps2 k)
    | .alt r1 r2 =>
      match mrun s fuel r1 i caps k with
      | some res => some res
      | none => mrun s fuel r2 i caps k
    | .star r =>
      -- greedy: try one more (progress-making) iteration first
      match mrun s fuel r i caps
          (fun j caps2 => if j = i then none else mrun s fuel (.star r) j caps2 k) with
      | some res => some res
      | none => k i caps
    | .group idx r =>
      mrun s fuel r i caps (fun j caps2 => k j ((idx, i, j) :: caps2))
    | .bol => if i = 0 then k i caps else none
    | .eol => if i = s.length then k i caps else none
    | .wordB =>
      let prevW := match i, s.get? (i - 1) with
        | 0, _ => false
        | _ + 1, some c => isWordChar c
        | _ + 1, none => false
      let curW := match s.get? i with
        | some c => isWordChar c
        | none => false
      if prevW ≠ curW then k i caps else none

def reFuel (re : RE) (s : List Char) : Nat :=
  (reSize re + 2) * (s.length + 2) + 64

/-- Try to match `re` at exactly position `i`, returning the match end and
the captures. -/
def reMatchAt (re : RE) (s : List Char) (i : Nat) : Option (Nat × Caps) :=
  mrun s (reFuel re s) re i [] (fun j caps => some (j, caps))

/-- Leftmost match at or after `start` (JS search order: positions are
tried in increasing order; at each position alternatives left to right).
Fuel drives structural recursion; `s.length + 1 - start` positions remain
to be tried, so the initial fuel below never runs out before the position
passes the end of the input. -/
def reSearchAux (re : RE) (s : List Char) : Nat → Nat → Option (Nat × Nat × Caps)
  | 0, _ => none
  | fuel + 1, start =>
    if start > s.length then none
    else
      match reMatchAt re s start with
      | some (e, caps) => some (start, e, caps)
      | none => reSearchAux re s fuel (start + 1)

def reSearchFrom (re : RE) (s : List Char) (start : Nat) : Option (Nat × Nat × Caps) :=
  reSearchAux re s (s.length + 1 - start) start

/-- Substring of the input spanned by capture group `i`, if the group
participated in the match. -/
def capStr (s : List Char) (caps : Caps) (i : Nat) : Option String :=
  (getCap caps i).map (fun se => String.mk ((s.drop se.1).take (se.2 - se.1)))

/-- JS `RegExp.prototype.test` on a `'g'`-flagged regexp: matching starts
at `lastIndex`, a successful test advances `lastIndex` to the match end,
a failed test (or `lastIndex` beyond the input) resets it to 0.  Returns
(result, new lastIndex). -/
def gTest (re : RE) (lastIndex : Nat) (s : String) : Bool × Nat :=
  if lastIndex > s.data.length then (false, 0)
  else
    match reSearchFrom re s.data lastIndex with
    | some (_, e, _) => (true, e)
    | none => (false, 0)

/-! ### The analyzer's concrete regexes (`analyzeDeclarations`,
lines 349-353) -/

/-- Literal character sequence. -/
def lit (s : String) : RE :=
  s.data.foldr (fun c r => RE.cat (RE.chr c) r) RE.eps

/-- One literal character, case-insensitively (the `'i'` flag). -/
def ciChr (c : Char) : RE :=
  RE.cls (fun x => x.toLower = c.toLower)

def litCI (s : String) : RE :=
  s.data.foldr (fun c r => RE.cat (ciChr c) r) RE.eps

def wsStar : RE := RE.star (RE.cls jsWs)

/-- `\d{1,3}`, greedy (three digits preferred, then two, then one). -/
def dig13 : RE :=
  RE.cat (RE.cls Char.isDigit)
    (RE.alt (RE.cat (RE.cls Char.isDigit) (RE.alt (RE.cls Char.isDigit) RE.eps)) RE.eps)

/-- JS `.` (anything but a line terminator). -/
def anyChar : RE := RE.cls (fun c => c ≠ '\n' && c ≠ '\r')

/-- Concatenation of a sequence of regex pieces. -/
def catList (rs : List RE) : RE :=
  rs.foldr RE.cat RE.eps

/-- `rgbRegex = /rgba*\(\s*(\d{1,3})\s*,\s*(\d{1,3})\s*,\s*(\d{1,3})\s*,\s*.*\)/`
(line 350).  Note the mandatory fourth comma after the third channel. -/
def rgbRE : RE :=
  catList [lit "rgb", RE.star (RE.chr 'a'), RE.chr '(',
    wsStar, RE.group 1 dig13, wsStar, RE.chr ',',
    wsStar, RE.group 2 dig13, wsStar, RE.chr ',',
    wsStar, RE.group 3 dig13, wsStar, RE.chr ',',
    wsStar, RE.star anyChar, RE.chr ')']

/-- `hexColorRegex = /#(\w*)/` (line 351). -/
def hexColorRE : RE :=
  RE.cat (RE.chr '#') (RE.group 1 (RE.star (RE.cls isWordChar)))

/-- The character class of the data-URI regex
`/data\:image\/[A-Za-z0-9;,\+\=\/]+/` (line 365). -/
def uriChar (c : Char) : Bool :=
  ('a' ≤ c && c ≤ 'z') || ('A' ≤ c && c ≤ 'Z') || ('0' ≤ c && c ≤ '9') ||
    c = ';' || c = ',' || c = '+' || c = '=' || c = '/'

def dataUriRE : RE :=
  RE.cat (lit "data:image/") (RE.cat (RE.cls uriChar) (RE.star (RE.cls uriChar)))

/-- One alternative pair `\W(nc)\b|^(nc)\b` of the named-colors regex, with
capture groups `idx` and `idx + 1` (line 349).  Named colors are plain
words, so interpolating them into the pattern is literal. -/
def namedColorAlt (idx : Nat) (nc : String) : RE :=
  RE.alt
    (RE.cat (RE.cls (fun c => !isWordChar c)) (RE.cat (RE.group idx (litCI nc)) RE.wordB))
    (RE.cat RE.bol (RE.cat (RE.group (idx + 1) (litCI nc)) RE.wordB))

def namedColorsREAux : List String → Nat → RE
  | [], _ => RE.eps
  | [nc], i => namedColorAlt i nc
  | nc :: rest1 :: rest, i =>
    RE.alt (namedColorAlt i nc) (namedColorsREAux (rest1 :: rest) (i + 2))

/-- `new RegExp(namedColors.map(nc => '\\W(' + nc + ')\\b|^(' + nc +
')\\b').join('|'), 'i')`: for the empty list the joined pattern is the
empty pattern, which matches the empty string anywhere. -/
def namedColorsRE (ncs : List String) : RE :=
  namedColorsREAux ncs 1

/-! ### `rgbToHex` (line 134) and `extractColor` (lines 455-480) -/

/-- JS numeric coercion `str * 1` on a digit string. -/
def digitsToNat (s : String) : Nat :=
  s.data.foldl (fun n c => n * 10 + (c.toNat - '0'.toNat)) 0

/-- `rgbToHex(r, g, b)`:
`"#" + ((1 << 24) + (r*1 << 16) + (g*1 << 8) + b*1).toString(16).slice(1)`.
JS `toString(16)` produces lowercase hex digits, as does `Nat.toDigits`. -/
def rgbToHex (r g b : Nat) : String :=
  "#" ++ String.mk ((Nat.toDigits 16 (2 ^ 24 + r * 2 ^ 16 + g * 2 ^ 8 + b)).drop 1)

/-- The capture groups an overall match of the named-colors regex leaves
defined, in group-index order, dropping falsy entries
(`namedColor.slice(1).filter(function (nc) { return nc; })`): undefined
groups and empty captures are both falsy in JS. -/
def capturedColors (s : List Char) (caps : Caps) (n : Nat) : List String :=
  ((List.range (2 * n)).filterMap (fun i => capStr s caps (i + 1))).filter
    (fun c => c ≠ "")

/-- `extractColor(value)` (lines 455-480): gradients yield no color; then
the rgb regex, the hex regex and the named-colors regex are tried in that
order; `none` models the JS `undefined` return. -/
def extractColor (namedColors : List String) (value : String) : Option (List String) :=
  if containsSubstr value "gradient" then none
  else
    match reSearchFrom rgbRE value.data 0 with
    | some (_, _, caps) =>
      some [rgbToHex
        (digitsToNat ((capStr value.data caps 1).getD ""))
        (digitsToNat ((capStr value.data caps 2).getD ""))
        (digitsToNat ((capStr value.data caps 3).getD ""))]
    | none =>
      match reSearchFrom hexColorRE value.data 0 with
      | some (_, _, caps) => some ["#" ++ (capStr value.data caps 1).getD ""]
      | none =>
        match reSearchFrom (namedColorsRE namedColors) value.data 0 with
        | some (_, _, caps) => some (capturedColors value.data caps namedColors.length)
        | none => none

/-! ### Data model (§3 of the spec; constructor arguments of `Analyzer`) -/

/-- One declaration; `source` is the opaque location token, used only as a
key. -/
structure DeclarationT where
  property : String
  value : String
  source : String

/-- A parsed rule.  `declarations` is `some` exactly when the parser node
carries an array of declarations (`Array.isArray(rule.declarations)`);
non-rule nodes such as comments have none. -/
structure Rule where
  selectors : List String
  declarations : Option (List DeclarationT)

/-- The shared source map: group name → value → list of source tokens,
all in insertion order. -/
structure SourceMap where
  values : List (String × List (String × List String))

/-! ### Shared helpers: frequency dictionaries and the JS sorts

JS objects keep string keys in insertion order; a frequency dictionary is
modelled as an association list where a new key is appended at the end and
an existing key is incremented in place.  `Array.prototype.sort` in every
engine stylestats runs on (ES2019 and later) is stable, and the comparator
`(a, b) => b.count - a.count` sorts descending by count; this is exactly a
stable descending insertion sort. -/

def bump : List (String × Nat) → String → List (String × Nat)
  | [], k => [(k, 1)]
  | (k', c) :: rest, k =>
    if k' = k then (k', c + 1) :: rest else (k', c) :: bump rest k

/-- Stable insertion step of the descending-by-count sort: an element moves
left past exactly the elements of strictly smaller count. -/
def insertCountDesc {α : Type} (key : α → Nat) (x : α) : List α → List α
  | [] => [x]
  | y :: ys => if key y ≤ key x then x :: y :: ys else y :: insertCountDesc key x ys

/-- `list.sort((a, b) => b.count - a.count)`: stable, descending. -/
def sortByCountDesc {α : Type} (key : α → Nat) (l : List α) : List α :=
  l.foldr (insertCountDesc key) []

/-- Stable ascending insertion step for `_.sortBy` on strings (UTF-16
lexicographic comparison; identical to Lean's `String` order on the ASCII
values involved). -/
def insertLexLe (x : String) : List String → List String
  | [] => [x]
  | y :: ys => if y < x then y :: insertLexLe x ys else x :: y :: ys

def sortLex (l : List String) : List String :=
  l.foldr insertLexLe []

/-- `_.uniq`: keep the first occurrence of each value, in order. -/
def uniqJSAux : List String → List String → List String
  | _, [] => []
  | seen, x :: xs =>
    if x ∈ seen then uniqJSAux seen xs else x :: uniqJSAux (x :: seen) xs

def uniqJS (l : List String) : List String :=
  uniqJSAux [] l

/-- The font-size sort key: `item.replace(/[^0-9\.]/g, '') - 0`, i.e. JS
`Number` of the string with everything but digits and dots removed.
`none` models `NaN` (two or more dots, or a lone dot); under underscore's
comparator `NaN` criteria fall back to index order, i.e. compare equal. -/
def fsKey (s : String) : Option ℚ :=
  let t := (s.data.filter (fun c => c.isDigit || c = '.'))
  match (String.mk t).split (fun c => c = '.') with
  | [ip] => some (digitsToNat ip)
  | [ip, fp] =>
    if ip = "" && fp = "" then none
    else some ((digitsToNat ip : ℚ) + (digitsToNat fp : ℚ) / ((10 : ℚ) ^ fp.length))
  | _ => none

def fsBefore (a b : Option ℚ) : Bool :=
  match a, b with
  | some x, some y => decide (x < y)
  | _, _ => false

def insertFs (x : String) : List String → List String
  | [] => [x]
  | y :: ys => if fsBefore (fsKey y) (fsKey x) then y :: insertFs x ys else x :: y :: ys

def sortByFsKey (l : List String) : List String :=
  l.foldr insertFs []

/-! ### `analyzeRules` (lines 180-203) -/

structure RuleEntry where
  selector : List String
  count : Nat
deriving Repr, DecidableEq

structure RuleResult where
  cssDeclarations : List RuleEntry
deriving Repr, DecidableEq

/-- `Analyzer.prototype.analyzeRules`: one entry per rule whose
`declarations` field is an array (`Array.isArray`, empty arrays included),
then a stable descending sort by count. -/
def analyzeRules (rules : List Rule) : RuleResult :=
  { cssDeclarations :=
      sortByCountDesc RuleEntry.count
        (rules.filterMap (fun r =>
          r.declarations.map (fun ds => { selector := r.selectors, count := ds.length }))) }

/-! ### `analyzeDeclarations` (lines 330-534) -/

structure PropEntry where
  property : String
  count : Nat
deriving Repr, DecidableEq

/-- The mutable state of one `analyzeDeclarations` run, before the final
byte-size conversion and sorting.  `unhandledColors` stays internal to the
run, exactly as the local `unhandledColors` object does. -/
structure DeclState where
  dataUriStr : String
  importantKeywords : Nat
  floatProperties : Nat
  uniqueFontSize : List String
  uniqueFontSizeDic : List (String × Nat)
  uniqueFontFamily : List String
  uniqueFontFamilyDic : List (String × Nat)
  uniqueColor : List String
  uniqueColorDic : List (String × Nat)
  properties : List (String × Nat)
  unhandledColors : List (String × Nat)
  sourceMap : SourceMap

def initDeclState (sm : SourceMap) : DeclState :=
  { dataUriStr := "", importantKeywords := 0, floatProperties := 0,
    uniqueFontSize := [], uniqueFontSizeDic := [],
    uniqueFontFamily := [], uniqueFontFamilyDic := [],
    uniqueColor := [], uniqueColorDic := [],
    properties := [], unhandledColors := [], sourceMap := sm }

/-- `addToSourceMap(groupName, item, source)` (lines 514-531). -/
def smAddSource (item source : String) :
    List (String × List String) → List (String × List String)
  | [] => [(item, [source])]
  | (k, srcs) :: rest =>
    if k = item then (k, if source ∈ srcs then srcs else srcs ++ [source]) :: rest
    else (k, srcs) :: smAddSource item source rest

def smAddGroup (group item source : String) :
    List (String × List (String × List String)) →
    List (String × List (String × List String))
  | [] => [(group, [(item, [source])])]
  | (g, items) :: rest =>
    if g = group then (g, smAddSource item source items) :: rest
    else (g, items) :: smAddGroup group item source rest

def addToSourceMap (sm : SourceMap) (group item source : String) : SourceMap :=
  { values := smAddGroup group item source sm.values }

/-- The first match of the data-URI regex, as the string JS appends:
`match(...)` yields a one-element array that coerces to its match text, or
`null`, which coerces to the string `"null"` under `+=`. -/
def dataUriMatch (value : String) : String :=
  match reSearchFrom dataUriRE value.data 0 with
  | some (b, e, _) => String.mk ((value.data.drop b).take (e - b))
  | none => "null"

/-- `/^#([0-9A-F]){3}$/.test(color)` (line 440): the value is already
uppercased at this point. -/
def isHex3 (c : String) : Bool :=
  match c.data with
  | ['#', a, b, d] =>
    [a, b, d].all (fun x => ('0' ≤ x && x ≤ '9') || ('A' ≤ x && x ≤ 'F'))
  | _ => false

/-- `color.replace(/^#(\w)(\w)(\w)$/, '#$1$1$2$2$3$3')` (line 441), which
always fires after `isHex3` succeeded. -/
def expandHex3 (c : String) : String :=
  match c.data with
  | ['#', a, b, d] => String.mk ['#', a, a, b, b, d, d]
  | _ => c

/-- The normalization inside `addColor` (lines 437-441): strip the first
`!important`, uppercase, trim, expand 3-digit hex. -/
def normalizeColor (c : String) : String :=
  let c1 := removeFirstSub c "!important"
  let c2 := jsTrim (jsToUpper c1)
  if isHex3 c2 then expandHex3 c2 else c2

/-- One iteration of `addColor`'s `colors.forEach` (lines 436-450):
normalized colors other than `TRANSPARENT`/`INHERIT` are pushed onto both
the result list and the running color statistics. -/
def addColorOne (acc : List String × DeclState) (c : String) : List String × DeclState :=
  let c' := normalizeColor c
  if c' ≠ "TRANSPARENT" && c' ≠ "INHERIT" then
    (acc.1 ++ [c'],
      { acc.2 with
        uniqueColorDic := bump acc.2.uniqueColorDic c',
        uniqueColor := acc.2.uniqueColor ++ [c'] })
  else acc

/-- `addColor(colors)` (lines 426-453); `none` (JS `undefined`) yields the
empty result.  `extractColor` only ever returns arrays, so the
`Array.isArray` coercion branch is dead. -/
def addColor (st : DeclState) (colors : Option (List String)) :
    List String × DeclState :=
  match colors with
  | none => ([], st)
  | some cs => cs.foldl addColorOne ([], st)

/-- `colorPropertyRegex = /^color$|^background$|^background-color$|^border/`
(line 353). -/
def colorProperty (p : String) : Bool :=
  p = "color" || p = "background" || p = "background-color" ||
    beginsWith p.data "border".data

/-- Data-URI step (lines 364-366). -/
def stepDataUri (st : DeclState) (d : DeclarationT) : DeclState :=
  if containsSubstr d.value "data:image" then
    { st with dataUriStr := st.dataUriStr ++ dataUriMatch d.value }
  else st

/-- `!important` step (lines 369-371). -/
def stepImportant (st : DeclState) (d : DeclarationT) : DeclState :=
  if containsSubstr d.value "!important" then
    { st with importantKeywords := st.importantKeywords + 1 }
  else st

/-- `float` step (lines 374-376); substring match on the property name. -/
def stepFloat (st : DeclState) (d : DeclarationT) : DeclState :=
  if containsSubstr d.property "float" then
    { st with floatProperties := st.floatProperties + 1 }
  else st

/-- Font-family step (lines 379-387); note the global `!important`
removal. -/
def stepFontFamily (st : DeclState) (d : DeclarationT) : DeclState :=
  if containsSubstr d.property "font-family" then
    let fFamily := jsTrim (removeAllSub d.value "!important")
    { st with
      uniqueFontFamilyDic := bump st.uniqueFontFamilyDic fFamily,
      uniqueFontFamily := st.uniqueFontFamily ++ [fFamily],
      sourceMap := addToSourceMap st.sourceMap "font-family" fFamily d.source }
  else st

/-- Font-size step (lines 390-398); only the first `!important` is
removed. -/
def stepFontSize (st : DeclState) (d : DeclarationT) : DeclState :=
  if containsSubstr d.property "font-size" then
    let fSize := jsTrim (removeFirstSub d.value "!important")
    { st with
      uniqueFontSizeDic := bump st.uniqueFontSizeDic fSize,
      uniqueFontSize := st.uniqueFontSize ++ [fSize],
      sourceMap := addToSourceMap st.sourceMap "font-size" fSize d.source }
  else st

/-- Color step (lines 401-416). -/
def stepColor (ncs : List String) (st : DeclState) (d : DeclarationT) : DeclState :=
  if colorProperty d.property then
    let added := addColor st (extractColor ncs d.value)
    if added.1.length = 0 then
      { added.2 with unhandledColors := bump added.2.unhandledColors d.value }
    else
      { added.2 with
        sourceMap := added.1.foldl
          (fun sm c => addToSourceMap sm "color" c d.source) added.2.sourceMap }
  else st

/-- Property-frequency step (lines 418-423); unconditional. -/
def stepProperty (st : DeclState) (d : DeclarationT) : DeclState :=
  { st with properties := bump st.properties d.property }

/-- `analyzeDeclaration(declaration)` (lines 362-424): all steps fire
independently on one declaration. -/
def analyzeDeclaration (ncs : List String) (st : DeclState) (d : DeclarationT) :
    DeclState :=
  stepProperty
    (stepColor ncs
      (stepFontSize
        (stepFontFamily
          (stepFloat (stepImportant (stepDataUri st d) d) d) d) d) d) d

structure DeclResult where
  dataUriSize : Nat
  importantKeywords : Nat
  floatProperties : Nat
  uniqueFontSize : List String
  uniqueFontSizeDic : List (String × Nat)
  uniqueFontFamily : List String
  uniqueFontFamilyDic : List (String × Nat)
  uniqueColor : List String
  uniqueColorDic : List (String × Nat)
  properties : List PropEntry
  sourceMap : SourceMap

/-- `Analyzer.prototype.analyzeDeclarations`: the single pass, then
`dataUriSizeToBytes` (UTF-8 byte length, line 511) and `sortAnalyzeData`
(lines 482-507). -/
def analyzeDeclarations (ncs : List String) (sm : SourceMap)
    (ds : List DeclarationT) : DeclResult :=
  let st := ds.foldl (analyzeDeclaration ncs) (initDeclState sm)
  { dataUriSize := utf8Len st.dataUriStr,
    importantKeywords := st.importantKeywords,
    floatProperties := st.floatProperties,
    uniqueFontSize := sortByFsKey (uniqJS st.uniqueFontSize),
    uniqueFontSizeDic := st.uniqueFontSizeDic,
    uniqueFontFamily := sortLex (uniqJS st.uniqueFontFamily),
    uniqueFontFamilyDic := st.uniqueFontFamilyDic,
    uniqueColor := sortLex (uniqJS st.uniqueColor),
    uniqueColorDic := st.uniqueColorDic,
    properties :=
      sortByCountDesc PropEntry.count
        (st.properties.map (fun kc => { property := kc.1, count := kc.2 })),
    sourceMap := st.sourceMap }

/-! ### `analyzeSelectors` (lines 215-316)

The external `css-selector-parser` collaborator turns one selector string
into a linked chain of nodes; the chain is modelled as a list (the
`while (rule) ... rule = rule.rule` walk) and the parser itself is a
function parameter.  Absent JS fields are `none`; JS truthiness of a
string field also rejects the empty string. -/

structure SelNode where
  id : Option String
  classNames : Option (List String)
  tagName : Option String
  attrs : Option (List String)

def jsTruthyStr : Option String → Bool
  | some s => s ≠ ""
  | none => false

structure IdEntry where
  selector : String
  count : Nat
deriving Repr, DecidableEq

structure SelResult where
  idSelectors : Nat
  universalSelectors : Nat
  attributeSelectors : Nat
  unqualifiedAttributeSelectors : Nat
  javascriptSpecificSelectors : Nat
  elementSelectors : Nat
  classSelectors : Nat
  identifiers : List IdEntry
deriving Repr, DecidableEq

/-- The per-run state of the selector loop.  `lastIndex` is the mutable
cursor of the single `'g'`-flagged `RegExp` object built once per run
(line 236) and shared by every `regexp.test` call (line 296). -/
structure SelState where
  idSelectors : Nat
  universalSelectors : Nat
  attributeSelectors : Nat
  unqualifiedAttributeSelectors : Nat
  javascriptSpecificSelectors : Nat
  elementSelectors : Nat
  classSelectors : Nat
  identifiers : List IdEntry
  lastIndex : Nat

def initSelState : SelState :=
  { idSelectors := 0, universalSelectors := 0, attributeSelectors := 0,
    unqualifiedAttributeSelectors := 0, javascriptSpecificSelectors := 0,
    elementSelectors := 0, classSelectors := 0, identifiers := [], lastIndex := 0 }

/-- One iteration of `this.selectors.forEach` (lines 239-308): walk the
parsed chain once setting the per-selector flags, bump each counter at most
once, run the stateful JS-hook test, and push the chain-length entry. -/
def selStep (parse : String → List SelNode) (re : RE) (st : SelState)
    (sel : String) : SelState :=
  let chain := parse sel
  let hasId := chain.any (fun n => jsTruthyStr n.id)
  let hasClass := chain.any (fun n => n.classNames.isSome && (n.classNames.getD []).length != 0)
  let hasTag := chain.any (fun n => jsTruthyStr n.tagName)
  let hasUniversal := chain.any (fun n => n.tagName = some "*")
  let hasAttr := chain.any (fun n => n.attrs.isSome && (n.attrs.getD []).length != 0)
  let hasUnqAttr := chain.any (fun n =>
    (n.attrs.isSome && (n.attrs.getD []).length != 0) &&
      !jsTruthyStr n.tagName && !jsTruthyStr n.id && n.classNames.isNone)
  let jsHook := gTest re st.lastIndex (jsTrim sel)
  { idSelectors := st.idSelectors + (if hasId then 1 else 0),
    universalSelectors := st.universalSelectors + (if hasUniversal then 1 else 0),
    attributeSelectors := st.attributeSelectors + (if hasAttr then 1 else 0),
    unqualifiedAttributeSelectors :=
      st.unqualifiedAttributeSelectors + (if hasUnqAttr then 1 else 0),
    javascriptSpecificSelectors :=
      st.javascriptSpecificSelectors + (if jsHook.1 then 1 else 0),
    elementSelectors := st.elementSelectors + (if hasTag then 1 else 0),
    classSelectors := st.classSelectors + (if hasClass then 1 else 0),
    identifiers := st.identifiers ++ [{ selector := sel, count := chainLength sel }],
    lastIndex := jsHook.2 }

/-- `Analyzer.prototype.analyzeSelectors`.  `regexpCompile` models the JS
`RegExp` constructor applied to the configured pattern string
(`new RegExp(this.options.javascriptSpecificSelectors, 'g')`, line 236). -/
def analyzeSelectors (regexpCompile : String → RE) (parse : String → List SelNode)
    (jsPattern : String) (selectors : List String) : SelResult :=
  let re := regexpCompile jsPattern
  let st := selectors.foldl (selStep parse re) initSelState
  { idSelectors := st.idSelectors,
    universalSelectors := st.universalSelectors,
    attributeSelectors := st.attributeSelectors,
    unqualifiedAttributeSelectors := st.unqualifiedAttributeSelectors,
    javascriptSpecificSelectors := st.javascriptSpecificSelectors,
    elementSelectors := st.elementSelectors,
    classSelectors := st.classSelectors,
    identifiers := sortByCountDesc IdEntry.count st.identifiers }

/-! ### `analyze` (lines 568-673) -/

/-- The option set.  JS truthiness: the boolean flags are `Bool`; the two
numeric options are `Nat` (0 is falsy); the JS-hook option is the pattern
string itself (the empty string standing for an absent or empty pattern,
both falsy). -/
structure Options where
  size : Bool
  dataUriSize : Bool
  ratioOfDataUriSize : Bool
  gzippedSize : Bool
  rules : Bool
  selectors : Bool
  simplicity : Bool
  mostIdentifier : Bool
  mostIdentifierSelector : Bool
  mostIdentifierCount : Nat
  lowestCohesion : Bool
  lowestCohesionSelector : Bool
  totalUniqueFontSizes : Bool
  uniqueFontSize : Bool
  uniqueFontSizeDic : Bool
  totalUniqueFontFamilies : Bool
  uniqueFontFamily : Bool
  uniqueFontFamilyDic : Bool
  totalUniqueColors : Bool
  uniqueColor : Bool
  uniqueColorDic : Bool
  idSelectors : Bool
  universalSelectors : Bool
  unqualifiedAttributeSelectors : Bool
  attributeSelectors : Bool
  elementSelectors : Bool
  classSelectors : Bool
  javascriptSpecificSelectors : String
  importantKeywords : Bool
  floatProperties : Bool
  propertiesCount : Nat
  sourceMap : Bool
  namedColors : List String

/-- The assembled result: `none` models a field the aggregator did not set.
The two quotient fields live in `ℚ`; JS would produce `NaN`/`Infinity` on
a zero divisor where `ℚ` yields 0, but every claim concerns only the
presence of these fields, never their value at a zero divisor. -/
structure Analysis where
  size : Option Nat
  dataUriSize : Option Nat
  ratioOfDataUriSize : Option ℚ
  gzippedSize : Option Nat
  rules : Option Nat
  selectors : Option Nat
  simplicity : Option ℚ
  mostIdentifierSelector : Option (List String)
  mostIdentifier : Option Nat
  lowestCohesion : Option Nat
  lowestCohesionSelector : Option (List String)
  totalUniqueFontSizes : Option Nat
  uniqueFontSize : Option (List String)
  uniqueFontSizeDic : Option (List (String × Nat))
  totalUniqueFontFamilies : Option Nat
  uniqueFontFamily : Option (List String)
  uniqueFontFamilyDic : Option (List (String × Nat))
  totalUniqueColors : Option Nat
  uniqueColor : Option (List String)
  uniqueColorDic : Option (List (String × Nat))
  idSelectors : Option Nat
  universalSelectors : Option Nat
  unqualifiedAttributeSelectors : Option Nat
  attributeSelectors : Option Nat
  elementSelectors : Option Nat
  classSelectors : Option Nat
  javascriptSpecificSelectors : Option Nat
  importantKeywords : Option Nat
  floatProperties : Option Nat
  propertiesCount : Option (List PropEntry)
  sourceMap : Option SourceMap

/-- The result object before any option-guarded assignment (`var analysis
= {}`, line 574): no field set. -/
def emptyAnalysis : Analysis :=
  { size := none, dataUriSize := none, ratioOfDataUriSize := none,
    gzippedSize := none, rules := none, selectors := none, simplicity := none,
    mostIdentifierSelector := none, mostIdentifier := none, lowestCohesion := none,
    lowestCohesionSelector := none, totalUniqueFontSizes := none,
    uniqueFontSize := none, uniqueFontSizeDic := none,
    totalUniqueFontFamilies := none, uniqueFontFamily := none,
    uniqueFontFamilyDic := none, totalUniqueColors := none, uniqueColor := none,
    uniqueColorDic := none, idSelectors := none, universalSelectors := none,
    unqualifiedAttributeSelectors := none, attributeSelectors := none,
    elementSelectors := none, classSelectors := none,
    javascriptSpecificSelectors := none, importantKeywords := none,
    floatProperties := none, propertiesCount := none, sourceMap := none }

/-- Assignments of `analyze` lines 576-596: the size block and the two
derived quotients.  `ratioOfDataUriSize` (line 582) is guarded by its two
option flags and by the computed `dataUriSize` — the numerator — being
non-zero; the divisor `this.cssSize` is not examined.  `simplicity`
(line 594) is guarded by three option flags and by nothing else. -/
def setSizeFields (a : Analysis) (declarationAnalysis : DeclResult) (gz : Option Nat)
    (rulesLen selsLen cssSize : Nat) (opts : Options) : Analysis :=
  { a with
    size := if opts.size then some cssSize else none,
    dataUriSize := if opts.dataUriSize then some declarationAnalysis.dataUriSize else none,
    ratioOfDataUriSize :=
      if opts.dataUriSize && opts.ratioOfDataUriSize &&
          declarationAnalysis.dataUriSize != 0 then
        some ((declarationAnalysis.dataUriSize : ℚ) / (cssSize : ℚ))
      else none,
    gzippedSize := gz,
    rules := if opts.rules then some rulesLen else none,
    selectors := if opts.selectors then some selsLen else none,
    simplicity :=
      if opts.rules && opts.selectors && opts.simplicity then
        some ((rulesLen : ℚ) / (selsLen : ℚ))
      else none }

/-- Assignments of `analyze` lines 597-610.  `mostIdentifierSelector`
(line 598) slices the still-intact sorted `identifiers` list; only
afterwards does `shift()` (line 600) remove its head for the
`mostIdentifier` scalar, so both read the same ranking.  `lowestCohesion`
and `lowestCohesionSelector` read the head `shift()` removed from
`cssDeclarations` (line 604). -/
def setRankFields (a : Analysis) (selectorAnalysis : SelResult)
    (ruleAnalysis : RuleResult) (opts : Options) : Analysis :=
  { a with
    mostIdentifierSelector :=
      if opts.mostIdentifierSelector && opts.mostIdentifierCount != 0 then
        some ((selectorAnalysis.identifiers.take opts.mostIdentifierCount).map
          IdEntry.selector)
      else none,
    mostIdentifier :=
      match selectorAnalysis.identifiers.head? with
      | some mi => if opts.mostIdentifier then some mi.count else none
      | none => none,
    lowestCohesion :=
      match ruleAnalysis.cssDeclarations.head? with
      | some ld => if opts.lowestCohesion then some ld.count else none
      | none => none,
    lowestCohesionSelector :=
      match ruleAnalysis.cssDeclarations.head? with
      | some ld => if opts.lowestCohesionSelector then some ld.selector else none
      | none => none }

/-- Assignments of `analyze` lines 611-637: the font and color metrics. -/
def setFontColorFields (a : Analysis) (declarationAnalysis : DeclResult)
    (opts : Options) : Analysis :=
  { a with
    totalUniqueFontSizes :=
      if opts.totalUniqueFontSizes then
        some declarationAnalysis.uniqueFontSize.length
      else none,
    uniqueFontSize :=
      if opts.uniqueFontSize then some declarationAnalysis.uniqueFontSize else none,
    uniqueFontSizeDic :=
      if opts.uniqueFontSizeDic then some declarationAnalysis.uniqueFontSizeDic else none,
    totalUniqueFontFamilies :=
      if opts.totalUniqueFontFamilies then
        some declarationAnalysis.uniqueFontFamily.length
      else none,
    uniqueFontFamily :=
      if opts.uniqueFontFamily then some declarationAnalysis.uniqueFontFamily else none,
    uniqueFontFamilyDic :=
      if opts.uniqueFontFamilyDic then
        some declarationAnalysis.uniqueFontFamilyDic
      else none,
    totalUniqueColors :=
      if opts.totalUniqueColors then some declarationAnalysis.uniqueColor.length else none,
    uniqueColor :=
      if opts.uniqueColor then some declarationAnalysis.uniqueColor else none,
    uniqueColorDic :=
      if opts.uniqueColorDic then some declarationAnalysis.uniqueColorDic else none }

/-- Assignments of `analyze` lines 638-670: the selector counters and the
remaining declaration metrics.  `javascriptSpecificSelectors` (line 656)
is guarded by the truthiness of the option value itself — the pattern
string; `propertiesCount` (line 666) slices the sorted property list to
the numeric option value. -/
def setCounterFields (a : Analysis) (selectorAnalysis : SelResult)
    (declarationAnalysis : DeclResult) (opts : Options) : Analysis :=
  { a with
    idSelectors := if opts.idSelectors then some selectorAnalysis.idSelectors else none,
    universalSelectors :=
      if opts.universalSelectors then some selectorAnalysis.universalSelectors else none,
    unqualifiedAttributeSelectors :=
      if opts.unqualifiedAttributeSelectors then
        some selectorAnalysis.unqualifiedAttributeSelectors
      else none,
    attributeSelectors :=
      if opts.attributeSelectors then some selectorAnalysis.attributeSelectors else none,
    elementSelectors :=
      if opts.elementSelectors then some selectorAnalysis.elementSelectors else none,
    classSelectors :=
      if opts.classSelectors then some selectorAnalysis.classSelectors else none,
    javascriptSpecificSelectors :=
      if opts.javascriptSpecificSelectors != "" then
        some selectorAnalysis.javascriptSpecificSelectors
      else none,
    importantKeywords :=
      if opts.importantKeywords then some declarationAnalysis.importantKeywords else none,
    floatProperties :=
      if opts.floatProperties then some declarationAnalysis.floatProperties else none,
    propertiesCount :=
      if opts.propertiesCount != 0 then
        some (declarationAnalysis.properties.take opts.propertiesCount)
      else none,
    sourceMap := if opts.sourceMap then some declarationAnalysis.sourceMap else none }

/-- All option-guarded assignments of `analyze` (lines 576-670) in source
order, starting from the empty result object. -/
def buildAnalysis (selectorAnalysis : SelResult) (ruleAnalysis : RuleResult)
    (declarationAnalysis : DeclResult) (gz : Option Nat)
    (rulesLen selsLen cssSize : Nat) (opts : Options) : Analysis :=
  setCounterFields
    (setFontColorFields
      (setRankFields
        (setSizeFields emptyAnalysis declarationAnalysis gz rulesLen selsLen cssSize opts)
        selectorAnalysis ruleAnalysis opts)
      declarationAnalysis opts)
    selectorAnalysis declarationAnalysis opts

/-- `Analyzer.prototype.analyze` (lines 568-673).  External collaborators
appear as function parameters: `regexpCompile` (the JS `RegExp`
constructor), `parse` (css-selector-parser) and `gzipFn` (`gzipSize.sync`,
line 586).  A `gzipFn` failure is a thrown exception: it propagates out of
`analyze` and the partially built result object is discarded — hence the
`Except` result. -/
def analyze (regexpCompile : String → RE) (parse : String → List SelNode)
    (gzipFn : String → Except Unit Nat)
    (rules : List Rule) (selectors : List String) (declarations : List DeclarationT)
    (cssString : String) (cssSize : Nat) (opts : Options) (sm : SourceMap) :
    Except Unit Analysis :=
  match (if opts.gzippedSize then (gzipFn cssString).map some else Except.ok none) with
  | Except.error e => Except.error e
  | Except.ok gz =>
    Except.ok
      (buildAnalysis
        (analyzeSelectors regexpCompile parse opts.javascriptSpecificSelectors selectors)
        (analyzeRules rules)
        (analyzeDeclarations opts.namedColors sm declarations)
        gz rules.length selectors.length cssSize opts)

/-! ### Concrete collaborator instances and inputs used in the examples -/

def exceptOk {ε α : Type} : Except ε α → Bool
  | Except.ok _ => true
  | Except.error _ => false

/-- An option set with every metric disabled; the examples enable the few
options they are about. -/
def offOptions : Options :=
  { size := false, dataUriSize := false, ratioOfDataUriSize := false,
    gzippedSize := false, rules := false, selectors := false, simplicity := false,
    mostIdentifier := false, mostIdentifierSelector := false, mostIdentifierCount := 0,
    lowestCohesion := false, lowestCohesionSelector := false,
    totalUniqueFontSizes := false, uniqueFontSize := false, uniqueFontSizeDic := false,
    totalUniqueFontFamilies := false, uniqueFontFamily := false,
    uniqueFontFamilyDic := false, totalUniqueColors := false, uniqueColor := false,
    uniqueColorDic := false, idSelectors := false, universalSelectors := false,
    unqualifiedAttributeSelectors := false, attributeSelectors := false,
    elementSelectors := false, classSelectors := false,
    javascriptSpecificSelectors := "", importantKeywords := false,
    floatProperties := false, propertiesCount := 0, sourceMap := false,
    namedColors := [] }

/-- A selector-structure parser instance returning the empty chain (the
examples never depend on chain classification). -/
def noParse : String → List SelNode := fun _ => []

/-- A `RegExp`-constructor instance compiling every pattern to the empty
regex (what JS does with an absent or empty pattern). -/
def epsCompile : String → RE := fun _ => RE.eps

/-- A `RegExp`-constructor instance for the concrete JS-hook pattern
`"^\.js"`: start anchor, then the literal characters `.js`. -/
def jsHookRE : RE := RE.cat RE.bol (lit ".js")

def jsHookCompile : String → RE := fun _ => jsHookRE

/-- A byte-compression collaborator that always succeeds. -/
def okGzip : String → Except Unit Nat := fun s => Except.ok s.utf8ByteSize

/-- A byte-compression collaborator that always fails (no compressor
available). -/
def failGzip : String → Except Unit Nat := fun _ => Except.error ()

def emptySM : SourceMap := ⟨[]⟩

/-- Options for the C1 example: `rules`, `selectors` and `simplicity`
enabled. -/
def simplicityOpts : Options :=
  { offOptions with rules := true, selectors := true, simplicity := true }

/-- Options for the C6 examples: `gzippedSize` (and `rules`) enabled. -/
def gzipRulesOpts : Options :=
  { offOptions with gzippedSize := true, rules := true }

def gzipOnlyOpts : Options :=
  { offOptions with gzippedSize := true }

/-- Options for the C7 example: `propertiesCount` sliced to the top 1. -/
def topPropOpts : Options :=
  { offOptions with propertiesCount := 1 }

/-- Options for the C8 witness: both most-identifier metrics with a top-1
slice. -/
def mostIdOpts : Options :=
  { offOptions with
    mostIdentifier := true
    mostIdentifierSelector := true
    mostIdentifierCount := 1 }

/-- Options for the C10 witness: a non-empty JS-hook pattern. -/
def jsPatternOpts : Options :=
  { offOptions with javascriptSpecificSelectors := "^\x5c.js" }

/-! ## Helper lemmas -/

theorem isSome_ite {α : Type} (b : Bool) (x : α) :
    (if b then some x else none).isSome = b := by
  cases b <;> rfl

theorem perm_insertCountDesc {α : Type} (key : α → Nat) (x : α) (l : List α) :
    (insertCountDesc key x l).Perm (x :: l) := by
  induction l with
  | nil => exact List.Perm.refl _
  | cons y ys ih =>
    rw [insertCountDesc]
    split
    · exact List.Perm.refl _
    · exact (ih.cons y).trans (List.Perm.swap x y ys)

theorem perm_sortByCountDesc {α : Type} (key : α → Nat) (l : List α) :
    (sortByCountDesc key l).Perm l := by
  induction l with
  | nil => exact List.Perm.refl _
  | cons x xs ih =>
    exact (perm_insertCountDesc key x (sortByCountDesc key xs)).trans (ih.cons x)

theorem mem_insertCountDesc {α : Type} (key : α → Nat) (x z : α) (l : List α) :
    z ∈ insertCountDesc key x l ↔ z = x ∨ z ∈ l := by
  rw [(perm_insertCountDesc key x l).mem_iff]
  simp

theorem pairwise_insertCountDesc {α : Type} (key : α → Nat) (x : α) (l : List α)
    (h : l.Pairwise (fun a b => key b ≤ key a)) :
    (insertCountDesc key x l).Pairwise (fun a b => key b ≤ key a) := by
  induction l with
  | nil => simp [insertCountDesc]
  | cons y ys ih =>
    rw [insertCountDesc]
    split
    · rename_i hxy
      refine List.Pairwise.cons ?_ h
      intro z hz
      rcases List.mem_cons.mp hz with hz | hz
      · exact hz ▸ hxy
      · exact le_trans (List.rel_of_pairwise_cons h hz) hxy
    · rename_i hxy
      push_neg at hxy
      refine List.Pairwise.cons ?_ (ih (List.Pairwise.of_cons h))
      intro z hz
      rcases (mem_insertCountDesc key x z ys).mp hz with hz | hz
      · exact hz ▸ le_of_lt hxy
      · exact List.rel_of_pairwise_cons h hz

theorem pairwise_sortByCountDesc {α : Type} (key : α → Nat) (l : List α) :
    (sortByCountDesc key l).Pairwise (fun a b => key b ≤ key a) := by
  induction l with
  | nil => simp [sortByCountDesc]
  | cons x xs ih => exact pairwise_insertCountDesc key x _ ih

/-- Total count held by a frequency dictionary. -/
def dicTotal (l : List (String × Nat)) : Nat :=
  (l.map (fun kc => kc.2)).sum

theorem dicTotal_bump (l : List (String × Nat)) (k : String) :
    dicTotal (bump l k) = dicTotal l + 1 := by
  induction l with
  | nil => simp [bump, dicTotal]
  | cons kc rest ih =>
    rw [bump]
    split
    · simp [dicTotal]
      omega
    · simp only [dicTotal, List.map_cons, List.sum_cons] at ih ⊢
      omega

theorem properties_stepDataUri (st : DeclState) (d : DeclarationT) :
    (stepDataUri st d).properties = st.properties := by
  rw [stepDataUri]
  split <;> rfl

theorem properties_stepImportant (st : DeclState) (d : DeclarationT) :
    (stepImportant st d).properties = st.properties := by
  rw [stepImportant]
  split <;> rfl

theorem properties_stepFloat (st : DeclState) (d : DeclarationT) :
    (stepFloat st d).properties = st.properties := by
  rw [stepFloat]
  split <;> rfl

theorem properties_stepFontFamily (st : DeclState) (d : DeclarationT) :
    (stepFontFamily st d).properties = st.properties := by
  rw [stepFontFamily]
  split <;> rfl

theorem properties_stepFontSize (st : DeclState) (d : DeclarationT) :
    (stepFontSize st d).properties = st.properties := by
  rw [stepFontSize]
  split <;> rfl

theorem properties_addColorOne (acc : List String × DeclState) (c : String) :
    (addColorOne acc c).2.properties = acc.2.properties := by
  rw [addColorOne]
  split <;> rfl

theorem properties_addColorFold (cs : List String) (acc : List String × DeclState) :
    (cs.foldl addColorOne acc).2.properties = acc.2.properties := by
  induction cs generalizing acc with
  | nil => rfl
  | cons c cs ih => rw [List.foldl_cons, ih, properties_addColorOne]

theorem properties_addColor (st : DeclState) (colors : Option (List String)) :
    (addColor st colors).2.properties = st.properties := by
  cases colors with
  | none => rfl
  | some cs => exact properties_addColorFold cs ([], st)

theorem properties_stepColor (ncs : List String) (st : DeclState) (d : DeclarationT) :
    (stepColor ncs st d).properties = st.properties := by
  simp only [stepColor]
  split
  · split
    · exact properties_addColor st _
    · exact properties_addColor st _
  · rfl

theorem properties_analyzeDeclaration (ncs : List String) (st : DeclState)
    (d : DeclarationT) :
    (analyzeDeclaration ncs st d).properties = bump st.properties d.property := by
  rw [analyzeDeclaration, stepProperty, properties_stepColor, properties_stepFontSize,
    properties_stepFontFamily, properties_stepFloat, properties_stepImportant,
    properties_stepDataUri]

theorem dicTotal_foldDecls (ncs : List String) (ds : List DeclarationT) :
    ∀ st : DeclState,
      dicTotal ((ds.foldl (analyzeDeclaration ncs) st).properties) =
        dicTotal st.properties + ds.length := by
  induction ds with
  | nil => intro st; simp
  | cons d ds ih =>
    intro st
    rw [List.foldl_cons, ih, properties_analyzeDeclaration, dicTotal_bump,
      List.length_cons]
    omega

/-! Membership helpers for the final deduplication and sorts. -/

theorem perm_insertLexLe (x : String) (l : List String) :
    (insertLexLe x l).Perm (x :: l) := by
  induction l with
  | nil => exact List.Perm.refl _
  | cons y ys ih =>
    rw [insertLexLe]
    split
    · exact (ih.cons y).trans (List.Perm.swap x y ys)
    · exact List.Perm.refl _

theorem perm_sortLex (l : List String) : (sortLex l).Perm l := by
  induction l with
  | nil => exact List.Perm.refl _
  | cons x xs ih => exact (perm_insertLexLe x (sortLex xs)).trans (ih.cons x)

theorem mem_uniqJSAux (seen l : List String) (x : String) :
    x ∈ uniqJSAux seen l → x ∈ l := by
  induction l generalizing seen with
  | nil => intro h; exact absurd h (List.not_mem_nil x)
  | cons y ys ih =>
    intro h
    rw [uniqJSAux] at h
    split at h
    · exact List.mem_cons_of_mem y (ih seen h)
    · rcases List.mem_cons.mp h with h | h
      · exact h ▸ List.mem_cons_self x ys
      · exact List.mem_cons_of_mem y (ih (y :: seen) h)

theorem mem_uniqJS (l : List String) (x : String) : x ∈ uniqJS l → x ∈ l :=
  mem_uniqJSAux [] l x

/-! Unique-color invariant helpers for C9. -/

theorem uniqueColor_stepDataUri (st : DeclState) (d : DeclarationT) :
    (stepDataUri st d).uniqueColor = st.uniqueColor := by
  rw [stepDataUri]
  split <;> rfl

theorem uniqueColor_stepImportant (st : DeclState) (d : DeclarationT) :
    (stepImportant st d).uniqueColor = st.uniqueColor := by
  rw [stepImportant]
  split <;> rfl

theorem uniqueColor_stepFloat (st : DeclState) (d : DeclarationT) :
    (stepFloat st d).uniqueColor = st.uniqueColor := by
  rw [stepFloat]
  split <;> rfl

theorem uniqueColor_stepFontFamily (st : DeclState) (d : DeclarationT) :
    (stepFontFamily st d).uniqueColor = st.uniqueColor := by
  rw [stepFontFamily]
  split <;> rfl

theorem uniqueColor_stepFontSize (st : DeclState) (d : DeclarationT) :
    (stepFontSize st d).uniqueColor = st.uniqueColor := by
  rw [stepFontSize]
  split <;> rfl

theorem uniqueColor_addColorOne (acc : List String × DeclState) (c x : String)
    (hx : x ∈ (addColorOne acc c).2.uniqueColor) :
    x ∈ acc.2.uniqueColor ∨ (x ≠ "TRANSPARENT" ∧ x ≠ "INHERIT") := by
  rw [addColorOne] at hx
  split at hx
  · rename_i hguard
    simp only at hx
    rcases List.mem_append.mp hx with hx | hx
    · exact Or.inl hx
    · right
      have hxe : x = normalizeColor c := List.mem_singleton.mp hx
      simp only [Bool.and_eq_true, decide_eq_true_eq] at hguard
      exact hxe ▸ ⟨hguard.1, hguard.2⟩
  · exact Or.inl hx

theorem uniqueColor_addColorFold (cs : List String) (acc : List String × DeclState)
    (x : String) (hx : x ∈ (cs.foldl addColorOne acc).2.uniqueColor) :
    x ∈ acc.2.uniqueColor ∨ (x ≠ "TRANSPARENT" ∧ x ≠ "INHERIT") := by
  induction cs generalizing acc with
  | nil => exact Or.inl hx
  | cons c cs ih =>
    rw [List.foldl_cons] at hx
    rcases ih (addColorOne acc c) hx with h | h
    · exact uniqueColor_addColorOne acc c x h
    · exact Or.inr h

theorem uniqueColor_stepColor (ncs : List String) (st : DeclState) (d : DeclarationT)
    (x : String) (hx : x ∈ (stepColor ncs st d).uniqueColor) :
    x ∈ st.uniqueColor ∨ (x ≠ "TRANSPARENT" ∧ x ≠ "INHERIT") := by
  simp only [stepColor] at hx
  split at hx
  · have key : ∀ colors, x ∈ (addColor st colors).2.uniqueColor →
        x ∈ st.uniqueColor ∨ (x ≠ "TRANSPARENT" ∧ x ≠ "INHERIT") := by
      intro colors h
      cases colors with
      | none => exact Or.inl h
      | some cs => exact uniqueColor_addColorFold cs ([], st) x h
    split at hx
    · exact key _ hx
    · exact key _ hx
  · exact Or.inl hx

theorem uniqueColor_analyzeDeclaration (ncs : List String) (st : DeclState)
    (d : DeclarationT) (x : String)
    (hx : x ∈ (analyzeDeclaration ncs st d).uniqueColor) :
    x ∈ st.uniqueColor ∨ (x ≠ "TRANSPARENT" ∧ x ≠ "INHERIT") := by
  rw [analyzeDeclaration] at hx
  have hx2 : x ∈ (stepColor ncs
      (stepFontSize (stepFontFamily (stepFloat (stepImportant (stepDataUri st d) d) d) d) d)
      d).uniqueColor := by
    simpa [stepProperty] using hx
  rcases uniqueColor_stepColor ncs _ d x hx2 with h | h
  · rw [uniqueColor_stepFontSize, uniqueColor_stepFontFamily, uniqueColor_stepFloat,
      uniqueColor_stepImportant, uniqueColor_stepDataUri] at h
    exact Or.inl h
  · exact Or.inr h

theorem uniqueColor_foldDecls (ncs : List String) (ds : List DeclarationT)
    (st : DeclState) (x : String)
    (hx : x ∈ (ds.foldl (analyzeDeclaration ncs) st).uniqueColor) :
    x ∈ st.uniqueColor ∨ (x ≠ "TRANSPARENT" ∧ x ≠ "INHERIT") := by
  induction ds generalizing st with
  | nil => exact Or.inl hx
  | cons d ds ih =>
    rw [List.foldl_cons] at hx
    rcases ih (analyzeDeclaration ncs st d) hx with h | h
    · exact uniqueColor_analyzeDeclaration ncs st d x h
    · exact Or.inr h

/-! Selector-loop helpers. -/

theorem identifiers_selStep (parse : String → List SelNode) (re : RE) (st : SelState)
    (sel : String) :
    (selStep parse re st sel).identifiers =
      st.identifiers ++ [{ selector := sel, count := chainLength sel }] := by
  simp only [selStep]

theorem identifiers_foldSel (parse : String → List SelNode) (re : RE)
    (sels : List String) :
    ∀ st : SelState,
      (sels.foldl (selStep parse re) st).identifiers =
        st.identifiers ++ sels.map (fun s => { selector := s, count := chainLength s }) := by
  induction sels with
  | nil => intro st; simp
  | cons sel sels ih =>
    intro st
    rw [List.foldl_cons, ih, identifiers_selStep, List.map_cons, List.append_assoc,
      List.singleton_append]

theorem analyzeSelectors_identifiers (rc : String → RE) (parse : String → List SelNode)
    (pat : String) (sels : List String) :
    (analyzeSelectors rc parse pat sels).identifiers =
      sortByCountDesc IdEntry.count
        (sels.map (fun s => { selector := s, count := chainLength s })) := by
  simp only [analyzeSelectors]
  rw [identifiers_foldSel]
  rfl

/-! Field-access lemmas for the assembled result. -/

theorem buildAnalysis_ratioOfDataUriSize (sa : SelResult) (ra : RuleResult)
    (da : DeclResult) (gz : Option Nat) (rl sl cz : Nat) (o : Options) :
    (buildAnalysis sa ra da gz rl sl cz o).ratioOfDataUriSize =
      if o.dataUriSize && o.ratioOfDataUriSize && da.dataUriSize != 0 then
        some ((da.dataUriSize : ℚ) / (cz : ℚ))
      else none := by
  simp [buildAnalysis, setSizeFields, setRankFields, setFontColorFields, setCounterFields]

theorem buildAnalysis_simplicity (sa : SelResult) (ra : RuleResult)
    (da : DeclResult) (gz : Option Nat) (rl sl cz : Nat) (o : Options) :
    (buildAnalysis sa ra da gz rl sl cz o).simplicity =
      if o.rules && o.selectors && o.simplicity then
        some ((rl : ℚ) / (sl : ℚ))
      else none := by
  simp [buildAnalysis, setSizeFields, setRankFields, setFontColorFields, setCounterFields]

theorem buildAnalysis_mostIdentifierSelector (sa : SelResult) (ra : RuleResult)
    (da : DeclResult) (gz : Option Nat) (rl sl cz : Nat) (o : Options) :
    (buildAnalysis sa ra da gz rl sl cz o).mostIdentifierSelector =
      if o.mostIdentifierSelector && o.mostIdentifierCount != 0 then
        some ((sa.identifiers.take o.mostIdentifierCount).map IdEntry.selector)
      else none := by
  simp [buildAnalysis, setSizeFields, setRankFields, setFontColorFields, setCounterFields]

theorem buildAnalysis_mostIdentifier (sa : SelResult) (ra : RuleResult)
    (da : DeclResult) (gz : Option Nat) (rl sl cz : Nat) (o : Options) :
    (buildAnalysis sa ra da gz rl sl cz o).mostIdentifier =
      match sa.identifiers.head? with
      | some mi => if o.mostIdentifier then some mi.count else none
      | none => none := by
  simp [buildAnalysis, setSizeFields, setRankFields, setFontColorFields, setCounterFields]

theorem buildAnalysis_javascriptSpecificSelectors (sa : SelResult) (ra : RuleResult)
    (da : DeclResult) (gz : Option Nat) (rl sl cz : Nat) (o : Options) :
    (buildAnalysis sa ra da gz rl sl cz o).javascriptSpecificSelectors =
      if o.javascriptSpecificSelectors != "" then
        some sa.javascriptSpecificSelectors
      else none := by
  simp [buildAnalysis, setSizeFields, setRankFields, setFontColorFields, setCounterFields]

/-! Run lemmas for `analyze` under the two gzip outcomes. -/

theorem analyze_gzip_off (rc : String → RE) (parse : String → List SelNode)
    (gzipFn : String → Except Unit Nat) (rules : List Rule) (sels : List String)
    (ds : List DeclarationT) (css : String) (sz : Nat) (opts : Options)
    (sm : SourceMap) (h : opts.gzippedSize = false) :
    analyze rc parse gzipFn rules sels ds css sz opts sm =
      Except.ok
        (buildAnalysis (analyzeSelectors rc parse opts.javascriptSpecificSelectors sels)
          (analyzeRules rules) (analyzeDeclarations opts.namedColors sm ds)
          none rules.length sels.length sz opts) := by
  simp [analyze, h]

theorem analyze_gzip_on (rc : String → RE) (parse : String → List SelNode)
    (gzipFn : String → Except Unit Nat) (rules : List Rule) (sels : List String)
    (ds : List DeclarationT) (css : String) (sz : Nat) (opts : Options)
    (sm : SourceMap) (n : Nat) (h : opts.gzippedSize = true)
    (h2 : gzipFn css = Except.ok n) :
    analyze rc parse gzipFn rules sels ds css sz opts sm =
      Except.ok
        (buildAnalysis (analyzeSelectors rc parse opts.javascriptSpecificSelectors sels)
          (analyzeRules rules) (analyzeDeclarations opts.namedColors sm ds)
          (some n) rules.length sels.length sz opts) := by
  simp [analyze, h, h2, Except.map]

theorem analyze_runs (rc : String → RE) (parse : String → List SelNode)
    (gzipFn : String → Except Unit Nat) (rules : List Rule) (sels : List String)
    (ds : List DeclarationT) (css : String) (sz : Nat) (opts : Options)
    (sm : SourceMap) (hg : ∀ s, exceptOk (gzipFn s) = true) :
    ∃ gz : Option Nat,
      analyze rc parse gzipFn rules sels ds css sz opts sm =
        Except.ok
          (buildAnalysis (analyzeSelectors rc parse opts.javascriptSpecificSelectors sels)
            (analyzeRules rules) (analyzeDeclarations opts.namedColors sm ds)
            gz rules.length sels.length sz opts) := by
  cases hgz : opts.gzippedSize with
  | false => exact ⟨none, analyze_gzip_off rc parse gzipFn rules sels ds css sz opts sm hgz⟩
  | true =>
    have h := hg css
    cases h2 : gzipFn css with
    | error e => rw [h2] at h; simp [exceptOk] at h
    | ok n =>
      exact ⟨some n, analyze_gzip_on rc parse gzipFn rules sels ds css sz opts sm n hgz h2⟩

theorem splitTokens_ne_nil (l : List Char) : splitTokens l ≠ [] := by
  induction l with
  | nil => simp [splitTokens]
  | cons c rest ih =>
    rw [splitTokens]
    split
    · simp
    · cases h : splitTokens rest with
      | nil => exact absurd h ih
      | cons t ts => simp [h]

/-! ## Claims -/

/-- C1, counterexample: with the `rules`, `selectors` and `simplicity`
options all enabled and an empty selector list — a zero divisor —
`analyze` still emits the `simplicity` field, so a derived quotient is not
restricted to runs whose divisor is non-zero. -/
theorem c1_counterexample :
    ((analyze epsCompile noParse okGzip [] [] [] "" 0 simplicityOpts emptySM).map
      (fun a => a.simplicity.isSome)) = Except.ok true ∧
      ([] : List String).length = 0 :=
  ⟨rfl, rfl⟩

/-- C1, amended: on every run in which the compression collaborator
succeeds, `ratioOfDataUriSize` is emitted exactly when its two option
flags are set and the computed `dataUriSize` — the numerator — is
non-zero, and `simplicity` is emitted exactly when the `rules`,
`selectors` and `simplicity` options are all three set; neither emission
examines its divisor. -/
theorem c1_amended_emission (rc : String → RE) (parse : String → List SelNode)
    (gzipFn : String → Except Unit Nat) (rules : List Rule) (sels : List String)
    (ds : List DeclarationT) (css : String) (sz : Nat) (opts : Options)
    (sm : SourceMap) (hg : ∀ s, exceptOk (gzipFn s) = true) :
    (analyze rc parse gzipFn rules sels ds css sz opts sm).map
      (fun a => (a.ratioOfDataUriSize.isSome, a.simplicity.isSome)) =
    Except.ok
      (opts.dataUriSize && opts.ratioOfDataUriSize &&
        ((analyzeDeclarations opts.namedColors sm ds).dataUriSize != 0),
       opts.rules && opts.selectors && opts.simplicity) := by
  obtain ⟨gz, hA⟩ := analyze_runs rc parse gzipFn rules sels ds css sz opts sm hg
  rw [hA]
  simp only [Except.map, buildAnalysis_ratioOfDataUriSize, buildAnalysis_simplicity,
    isSome_ite]

theorem c1_amended_emission_witness :
    (∀ s, exceptOk (okGzip s) = true) ∧
      ((analyze epsCompile noParse okGzip [] [] [] "" 0 offOptions emptySM).map
        (fun a => (a.ratioOfDataUriSize.isSome, a.simplicity.isSome)) =
      Except.ok
        (offOptions.dataUriSize && offOptions.ratioOfDataUriSize &&
          ((analyzeDeclarations offOptions.namedColors emptySM []).dataUriSize != 0),
         offOptions.rules && offOptions.selectors && offOptions.simplicity)) :=
  ⟨fun _ => rfl,
    c1_amended_emission epsCompile noParse okGzip [] [] [] "" 0 offOptions emptySM
      (fun _ => rfl)⟩

/-- C2, counterexample: a rule whose declaration list is the empty array
still contributes an entry (with count 0) to `analyzeRules`' output, so
rules with zero declarations are not omitted. -/
theorem c2_counterexample :
    (analyzeRules [{ selectors := [".a"], declarations := some [] }]).cssDeclarations =
      [{ selector := [".a"], count := 0 }] := rfl

/-- C2, amended: `analyzeRules` emits one `{selector, count}` entry exactly
for each rule whose `declarations` field is an array — empty arrays
included, contributing count 0; rules without a declarations array
contribute nothing — and the output is that entry list sorted descending
by count. -/
theorem c2_amended (rules : List Rule) :
    ((analyzeRules rules).cssDeclarations).Perm
        (rules.filterMap (fun r => r.declarations.map
          (fun ds => { selector := r.selectors, count := ds.length }))) ∧
      ((analyzeRules rules).cssDeclarations).Pairwise
        (fun a b => b.count ≤ a.count) :=
  ⟨perm_sortByCountDesc RuleEntry.count _, pairwise_sortByCountDesc RuleEntry.count _⟩

/-- C3: evaluating the embedded color pipeline at the spec's own examples.
`rgbRegex` demands a comma and a fourth component after the blue channel,
so the three-argument `rgb(0,0,0)` matches nothing and no color is
extracted — against the claim's `#000000` — while the four-argument
`rgba(255,255,255,0.5)` does normalize to `#FFFFFF`. -/
theorem c3_rgb_eval :
    extractColor ["red"] "rgb(0,0,0)" = none ∧
      (analyzeDeclarations ["red"] emptySM
        [{ property := "color", value := "rgba(255,255,255,0.5)", source := "s1" }]).uniqueColor
        = ["#FFFFFF"] :=
  ⟨rfl, rfl⟩

/-- C4: the JS-hook regexp is built once with the `'g'` flag, so
`regexp.test` keeps its `lastIndex` across selectors: for the pattern
`^\.js` over `[".js-a", ".js-b"]` only the first selector is counted
(the second test resumes at index 3, where the `^` anchor fails), although
the second selector does match when tested from a fresh `lastIndex`. -/
theorem c4_stateful_eval :
    (analyzeSelectors jsHookCompile noParse "^\x5c.js"
        [".js-a", ".js-b"]).javascriptSpecificSelectors = 1 ∧
      (gTest jsHookRE 0 ".js-b").1 = true :=
  ⟨rfl, rfl⟩

/-- C5, counterexample: the chain length the code reports for the spec's
example selector is 7, not 3 — the first replacement removes at most one
whitespace character per side of a combinator, and the split keeps empty
tokens. -/
theorem c5_counterexample :
    chainLength "  .a   >  .b ~ .c  " = 7 ∧
      chainLength "  .a   >  .b ~ .c  " ≠ 3 :=
  ⟨rfl, by decide⟩

/-- C5, amended: the reported chain length is the token count — empty
tokens included — after removing at most one whitespace character on each
side of each combinator occurrence and collapsing the remaining whitespace
runs; the spec's padded example therefore counts 7, its single-spaced
trimmed form counts 3, and every selector counts at least 1. -/
theorem c5_amended :
    chainLength "  .a   >  .b ~ .c  " = 7 ∧ chainLength ".a > .b ~ .c" = 3 ∧
      ∀ s : String, 1 ≤ chainLength s := by
  refine ⟨rfl, rfl, fun s => ?_⟩
  exact List.length_pos.mpr (splitTokens_ne_nil _)

/-- C6, counterexample: with `gzippedSize` and `rules` enabled and a
failing compression collaborator, `analyze` propagates the failure and
produces no result at all — the run aborts instead of omitting the gzip
metric. -/
theorem c6_counterexample :
    analyze epsCompile noParse failGzip
        [{ selectors := [".a"], declarations := some [⟨"color", "red", "s"⟩] }]
        [] [] "body" 4 gzipRulesOpts emptySM =
      Except.error () := rfl

/-- C6, amended: when the `gzippedSize` option is enabled and the
byte-compression collaborator fails on the stylesheet text, `analyze`
rethrows that failure: the whole analysis aborts and no metric of any kind
is emitted. -/
theorem c6_amended (rc : String → RE) (parse : String → List SelNode)
    (gzipFn : String → Except Unit Nat) (rules : List Rule) (sels : List String)
    (ds : List DeclarationT) (css : String) (sz : Nat) (opts : Options)
    (sm : SourceMap) (h1 : opts.gzippedSize = true)
    (h2 : gzipFn css = Except.error ()) :
    analyze rc parse gzipFn rules sels ds css sz opts sm = Except.error () := by
  simp [analyze, h1, h2, Except.map]

theorem c6_amended_witness :
    gzipOnlyOpts.gzippedSize = true ∧ failGzip "x" = Except.error () ∧
      analyze epsCompile noParse failGzip [] [] [] "x" 0 gzipOnlyOpts emptySM =
        Except.error () :=
  ⟨rfl, rfl,
    c6_amended epsCompile noParse failGzip [] [] [] "x" 0 gzipOnlyOpts emptySM rfl rfl⟩

/-- C7, counterexample: with `propertiesCount := 1` and three declarations
over two distinct properties, the emitted `propertiesCount` entry is the
top-1 slice of the sorted property list, so its counts sum to 2, not to
the declaration count 3. -/
theorem c7_counterexample :
    ((analyze epsCompile noParse okGzip [] []
        [⟨"a", "1", "s"⟩, ⟨"b", "2", "s"⟩, ⟨"b", "3", "s"⟩] "" 0
        topPropOpts emptySM).map
      (fun a => ((a.propertiesCount.getD []).map PropEntry.count).sum)) =
      Except.ok 2 ∧
      ([⟨"a", "1", "s"⟩, ⟨"b", "2", "s"⟩, ⟨"b", "3", "s"⟩] : List DeclarationT).length = 3 :=
  ⟨rfl, rfl⟩

/-- C7, amended: the counts in the full sorted property list produced by
`analyzeDeclarations` sum to the number of declarations analyzed; the
emitted `propertiesCount` is the first-`N` slice of that list (`N` being
the numeric option value), so its sum only equals the declaration count
when `N` is at least the number of distinct properties. -/
theorem c7_amended (ncs : List String) (sm : SourceMap) (ds : List DeclarationT) :
    ((analyzeDeclarations ncs sm ds).properties.map PropEntry.count).sum =
      ds.length := by
  show ((sortByCountDesc PropEntry.count
      ((ds.foldl (analyzeDeclaration ncs) (initDeclState sm)).properties.map
        (fun kc => { property := kc.1, count := kc.2 }))).map PropEntry.count).sum =
    ds.length
  rw [((perm_sortByCountDesc PropEntry.count
      ((ds.foldl (analyzeDeclaration ncs) (initDeclState sm)).properties.map
        (fun kc => { property := kc.1, count := kc.2 }))).map PropEntry.count).sum_eq]
  rw [List.map_map]
  have hfold := dicTotal_foldDecls ncs ds (initDeclState sm)
  simp only [dicTotal, initDeclState, List.map_nil, List.sum_nil, Nat.zero_add] at hfold
  exact hfold

/-- C8: when `mostIdentifier`, `mostIdentifierSelector` and a non-zero
`mostIdentifierCount` are all enabled, the emitted top-N list is the
`take N` of the still-intact sorted identifiers list and the emitted
scalar is the count of that same list's head, so the scalar's destructive
`shift()` never shrinks what the top-N read observes: the emitted list has
length `min N selectors.length`. -/
theorem c8_most_identifier (rc : String → RE) (parse : String → List SelNode)
    (gzipFn : String → Except Unit Nat) (rules : List Rule) (sels : List String)
    (ds : List DeclarationT) (css : String) (sz : Nat) (opts : Options)
    (sm : SourceMap) (hg : ∀ s, exceptOk (gzipFn s) = true)
    (hmi : opts.mostIdentifier = true) (hmis : opts.mostIdentifierSelector = true)
    (hN : opts.mostIdentifierCount ≠ 0) :
    (analyze rc parse gzipFn rules sels ds css sz opts sm).map
      (fun a => (a.mostIdentifierSelector, a.mostIdentifier,
        (a.mostIdentifierSelector.getD []).length)) =
    Except.ok
      (some (((sortByCountDesc IdEntry.count
          (sels.map (fun s => { selector := s, count := chainLength s }))).take
            opts.mostIdentifierCount).map IdEntry.selector),
       (sortByCountDesc IdEntry.count
          (sels.map (fun s => { selector := s, count := chainLength s }))).head?.map
            IdEntry.count,
       min opts.mostIdentifierCount sels.length) := by
  obtain ⟨gz, hA⟩ := analyze_runs rc parse gzipFn rules sels ds css sz opts sm hg
  rw [hA]
  have hsel : (opts.mostIdentifierSelector && opts.mostIdentifierCount != 0) = true := by
    simp [hmis, hN]
  simp only [Except.map]
  apply congrArg Except.ok
  rw [buildAnalysis_mostIdentifierSelector, buildAnalysis_mostIdentifier,
    analyzeSelectors_identifiers, if_pos hsel]
  simp only [Prod.mk.injEq]
  refine ⟨trivial, ?_, ?_⟩
  · cases h : (sortByCountDesc IdEntry.count
        (sels.map (fun s => { selector := s, count := chainLength s }))).head? with
    | none => simp
    | some mi => simp [hmi]
  · simp only [Option.getD_some, List.length_map, List.length_take]
    rw [(perm_sortByCountDesc IdEntry.count
      (sels.map (fun s => { selector := s, count := chainLength s }))).length_eq]
    rw [List.length_map]

theorem c8_most_identifier_witness :
    (∀ s, exceptOk (okGzip s) = true) ∧
      mostIdOpts.mostIdentifier = true ∧
      mostIdOpts.mostIdentifierSelector = true ∧
      mostIdOpts.mostIdentifierCount ≠ 0 ∧
      ((analyze epsCompile noParse okGzip [] [".a .b", ".c"] [] "" 0 mostIdOpts
          emptySM).map
        (fun a => (a.mostIdentifierSelector, a.mostIdentifier,
          (a.mostIdentifierSelector.getD []).length)) =
      Except.ok
        (some (((sortByCountDesc IdEntry.count
            ([".a .b", ".c"].map (fun s => { selector := s, count := chainLength s }))).take
              mostIdOpts.mostIdentifierCount).map IdEntry.selector),
         (sortByCountDesc IdEntry.count
            ([".a .b", ".c"].map (fun s => { selector := s, count := chainLength s }))).head?.map
              IdEntry.count,
         min mostIdOpts.mostIdentifierCount ([".a .b", ".c"] : List String).length)) :=
  ⟨fun _ => rfl, rfl, rfl, by decide,
    c8_most_identifier epsCompile noParse okGzip [] [".a .b", ".c"] [] "" 0 mostIdOpts
      emptySM (fun _ => rfl) rfl rfl (by decide)⟩

/-- C9: for every declaration list and named-color option list, the
normalized keywords `TRANSPARENT` and `INHERIT` never appear in the
`uniqueColor` output — `addColor` filters candidates after normalization
(strip `!important`, uppercase, trim), so they are rejected in whatever
case and with whatever `!important` marker they arrive. -/
theorem c9_no_transparent_inherit (ncs : List String) (sm : SourceMap)
    (ds : List DeclarationT) :
    "TRANSPARENT" ∉ (analyzeDeclarations ncs sm ds).uniqueColor ∧
      "INHERIT" ∉ (analyzeDeclarations ncs sm ds).uniqueColor := by
  have main : ∀ x : String, x ∈ (analyzeDeclarations ncs sm ds).uniqueColor →
      x ≠ "TRANSPARENT" ∧ x ≠ "INHERIT" := by
    intro x hx
    have hx0 : x ∈ sortLex (uniqJS
        ((ds.foldl (analyzeDeclaration ncs) (initDeclState sm)).uniqueColor)) := hx
    have hx1 := (perm_sortLex _).mem_iff.mp hx0
    have hx2 := mem_uniqJS _ x hx1
    rcases uniqueColor_foldDecls ncs ds (initDeclState sm) x hx2 with h | h
    · simp [initDeclState] at h
    · exact h
  exact ⟨fun hx => (main _ hx).1 rfl, fun hx => (main _ hx).2 rfl⟩

/-- C10: the `javascriptSpecificSelectors` entry is present in the result
exactly when the option value — the pattern string itself — is truthy,
i.e. non-empty; the same string is both the compiled pattern and the
enable flag, and an absent or empty pattern suppresses the counter. -/
theorem c10_js_flag_presence (rc : String → RE) (parse : String → List SelNode)
    (gzipFn : String → Except Unit Nat) (rules : List Rule) (sels : List String)
    (ds : List DeclarationT) (css : String) (sz : Nat) (opts : Options)
    (sm : SourceMap) (hg : ∀ s, exceptOk (gzipFn s) = true) :
    (analyze rc parse gzipFn rules sels ds css sz opts sm).map
      (fun a => a.javascriptSpecificSelectors.isSome) =
    Except.ok (opts.javascriptSpecificSelectors != "") := by
  obtain ⟨gz, hA⟩ := analyze_runs rc parse gzipFn rules sels ds css sz opts sm hg
  rw [hA]
  simp only [Except.map, buildAnalysis_javascriptSpecificSelectors, isSome_ite]

theorem c10_js_flag_presence_witness :
    (∀ s, exceptOk (okGzip s) = true) ∧
      ((analyze epsCompile noParse okGzip [] [".js-a"] [] "" 0 jsPatternOpts
          emptySM).map (fun a => a.javascriptSpecificSelectors.isSome) =
      Except.ok (jsPatternOpts.javascriptSpecificSelectors != "")) :=
  ⟨fun _ => rfl,
    c10_js_flag_presence epsCompile noParse okGzip [] [".js-a"] [] "" 0 jsPatternOpts
      emptySM (fun _ => rfl)⟩

end StyleStats
